import Mathlib

/-!
Shallow embedding of the VisTrails module execution engine
(`vistrails/core/modules/vistrails_module.py`): the `update` protocol,
upstream traversal, batch iteration, the streaming dispatch, the bounded
while loop, connector resolution and fan-in input access.  Machinery that
lives outside these sources (the `Iterator` class, `create_constant` and
the module registry, all in modules not shipped here) is either modelled
from the spec (marked as such) or abstracted into explicit parameters.
-/

namespace VisTrails

/-- Reference to a module instance: an identifier plus whether the
instance carries an `interpreter` attribute, which the exception
re-wrapping logic in `Module.update` inspects via `hasattr`. -/
structure MRef where
  mid : Nat
  hasInterp : Bool
  deriving DecidableEq

/-- Python values flowing through ports.  `iter d v` models a
materialized `Iterator` of list depth `d` with backing value `v` (the
`Iterator` class is defined in `basic_modules`, outside these sources;
its materialized form is modelled from the spec: a depth-tagged wrapper
whose production yields the backing value). -/
inductive Value where
  | none_
  | bool (b : Bool)
  | int (n : Int)
  | str (s : String)
  | list (elems : List Value)
  | tuple (elems : List Value)
  | iter (depth : Nat) (backing : Value)
  | invalid

/-- Python truthiness of the modelled values; custom objects (Iterator
wrappers, the InvalidOutput sentinel class) are truthy. -/
def truthy : Value → Bool
  | .none_ => false
  | .bool b => b
  | .int n => n != 0
  | .str s => s != ""
  | .list l => !l.isEmpty
  | .tuple l => !l.isEmpty
  | .iter _ _ => true
  | .invalid => true

/-- The exception taxonomy of the engine.  `hadError` is
`ModuleHadError`, `wasSuspended` is `ModuleWasSuspended` (a subclass of
`ModuleHadError`), `suspended` is `ModuleSuspended` with its `children`
and `loop_iteration` fields, `moduleError` is `ModuleError` carrying the
raising module and message, `moduleErrors` is the aggregate
`ModuleErrors`, `breakpoint` is `ModuleBreakpoint`, and
`keyboardInterrupt` / `generic` stand for raw Python exceptions escaping
a computation (`generic` carries the message and traceback text). -/
inductive Exc where
  | hadError (m : MRef)
  | wasSuspended (m : MRef)
  | suspended (m : MRef) (msg : String) (children : List Exc)
      (loopIteration : Option Nat)
  | moduleError (m : MRef) (msg : String)
  | moduleErrors (msgs : List String)
  | breakpoint (m : MRef)
  | keyboardInterrupt
  | generic (msg : String) (tb : String)

/-- Whether an exception is a fresh `ModuleSuspended` (the only
constructor the `except ModuleSuspended` clauses catch). -/
def Exc.isSusp : Exc → Bool
  | .suspended _ _ _ _ => true
  | _ => false

/-- Message text that `debug.format_exception` extracts from a raw
exception (the `debug` module is outside these sources; modelled from
the spec as the original message). -/
def excMessage : Exc → String
  | .generic msg _ => msg
  | .moduleError _ msg => msg
  | .suspended _ msg _ _ => msg
  | _ => ""

/-- Traceback text attached to a raw exception. -/
def excTraceback : Exc → String
  | .generic _ tb => tb
  | _ => ""

/-- Output-port store: port name to produced value, in insertion
order. -/
abbrev Outs := List (String × Value)

/-- The mutable execution state of a `Module` instance that
`Module.update` reads and writes: the four execution flags, the
breakpoint flag, the output-port map, plus two instrumentation counters
recording how many times the computation body and the upstream
traversal have been entered (these model "compute() was invoked" /
"update_upstream() was invoked" and are touched only by `update`). -/
structure ModuleState where
  ref : MRef
  upToDate : Bool
  had_error : Bool
  was_suspended : Bool
  computed : Bool
  is_breakpoint : Bool
  outputPorts : Outs
  computeCount : Nat
  upstreamCount : Nat

/-- Result of the computation dispatched inside `update`'s try block
(lines 451-468: one of `compute_streaming`, `compute_all`,
`compute_while` or `compute`): per the engine contract a computation
only produces output-port values; it either finishes with the final
output map or raises, leaving the outputs it set before raising. -/
inductive BodyResult where
  | ok (outs : Outs)
  | raise (e : Exc) (outs : Outs)

/-- Result of `Module.update`: normal return or a raised exception,
with the state the instance is left in (Python mutations persist past a
raise). -/
inductive UpdateResult where
  | ok (s : ModuleState)
  | raised (e : Exc) (s : ModuleState)

/-- The except-clause cascade of `Module.update` (lines 470-491),
applied to an exception escaping the dispatched computation:
a `ModuleSuspended` clears `had_error`, sets `was_suspended` and
re-raises; a `ModuleError` whose module has an `interpreter` attribute
is re-raised, otherwise it is re-wrapped as a new `ModuleError` on this
module; `ModuleErrors` and `ModuleBreakpoint` are re-raised unchanged;
a `KeyboardInterrupt` becomes `ModuleError(self, 'Interrupted by
user')`; any other exception becomes `ModuleError(self, "Uncaught
exception: ...")` carrying the original message and traceback text. -/
def handleBodyExc (s : ModuleState) (e : Exc) : UpdateResult :=
  match e with
  | .suspended m msg ch li =>
      .raised (.suspended m msg ch li)
        { s with had_error := false, was_suspended := true }
  | .moduleError m msg =>
      if m.hasInterp then .raised (.moduleError m msg) s
      else .raised (.moduleError s.ref
        ("A dynamic module raised an exception: \x27" ++ msg ++ "\x27")) s
  | .moduleErrors msgs => .raised (.moduleErrors msgs) s
  | .keyboardInterrupt =>
      .raised (.moduleError s.ref "Interrupted by user") s
  | .breakpoint m => .raised (.breakpoint m) s
  | e =>
      .raised (.moduleError s.ref
        ("Uncaught exception: " ++ excMessage e ++ "\n" ++ excTraceback e)) s

/-- Runs the dispatched computation and the success epilogue of
`update` (lines 469, 492-495): on success record the outputs, set
`computed`, then `upToDate := true` and `had_error := false`; on an
exception record the outputs set so far and classify it. -/
def runBody (body : ModuleState → BodyResult) (s : ModuleState) :
    UpdateResult :=
  match body s with
  | .ok outs =>
      .ok { s with outputPorts := outs, computed := true,
                   upToDate := true, had_error := false }
  | .raise e outs => handleBodyExc { s with outputPorts := outs } e

/-- `Module.update` (lines 427-497).  `upstream` is the outcome of
`self.update_upstream()` (modelled separately as `update_upstream`);
`body` is the computation dispatch of the try block.  Guards: a
poisoned instance raises `ModuleHadError`, a suspended one
`ModuleWasSuspended`, a computed one returns immediately; then upstream
runs; an `upToDate` instance is marked computed without computing;
otherwise `had_error` is set optimistically, the breakpoint check runs,
and the computation body is invoked exactly once. -/
def update (upstream : Except Exc Unit) (body : ModuleState → BodyResult)
    (s : ModuleState) : UpdateResult :=
  if s.had_error then .raised (.hadError s.ref) s
  else if s.was_suspended then .raised (.wasSuspended s.ref) s
  else if s.computed then .ok s
  else
    match upstream with
    | .error e => .raised e { s with upstreamCount := s.upstreamCount + 1 }
    | .ok _ =>
      if s.upToDate then
        .ok { s with upstreamCount := s.upstreamCount + 1, computed := true }
      else if s.is_breakpoint then
        .raised (.breakpoint s.ref)
          { s with upstreamCount := s.upstreamCount + 1, had_error := true }
      else
        runBody body
          { s with upstreamCount := s.upstreamCount + 1,
                   had_error := true, computeCount := s.computeCount + 1 }

/-- Whether an upstream `update` outcome is one the collection loop of
`update_upstream` absorbs (no exception, a fresh suspension, or the
was-suspended poison); any other exception escapes the loop at once. -/
def softOutcome : Option Exc → Bool
  | none => true
  | some (.suspended _ _ _ _) => true
  | some (.wasSuspended _) => true
  | _ => false

/-- The collection loop of `Module.update_upstream` (lines 373-384):
walks the outcome of `connector.obj.update()` for every connector,
appending fresh `ModuleSuspended`s, remembering the last
`ModuleWasSuspended`, and letting every other exception propagate
immediately. -/
def upCollect : List (Option Exc) → List Exc → Option Exc →
    Except Exc (List Exc × Option Exc)
  | [], susp, ws => .ok (susp, ws)
  | none :: rest, susp, ws => upCollect rest susp ws
  | some e :: rest, susp, ws =>
    match e with
    | .wasSuspended m => upCollect rest susp (some (.wasSuspended m))
    | .suspended m msg ch li =>
        upCollect rest (susp ++ [.suspended m msg ch li]) ws
    | e => .error e

/-- `Module.update_upstream` (lines 366-393), with each connector's
`update()` outcome given as `outcomes`, in traversal order: after the
collection loop, exactly one collected suspension is re-raised as is;
several are aggregated into one `ModuleSuspended` with them as
children; otherwise a remembered was-suspended poison is re-raised.
(The subsequent dropping of `InvalidOutput` connectors, lines 394-397,
only runs when nothing was raised and is not modelled here.)  Returns
the raised exception, if any. -/
def update_upstream (self : MRef) (outcomes : List (Option Exc)) :
    Option Exc :=
  match upCollect outcomes [] none with
  | .error e => some e
  | .ok (susp, ws) =>
    match susp with
    | [s] => some s
    | [] => ws
    | ss => some (.suspended self "multiple suspended upstream modules" ss none)

/-- Specification helper: the fresh suspensions among the upstream
outcomes, in order. -/
def freshSusps (outcomes : List (Option Exc)) : List Exc :=
  outcomes.filterMap fun o =>
    match o with
    | some (.suspended m msg ch li) => some (.suspended m msg ch li)
    | _ => none

/-- Specification helper: how one upstream outcome updates the
remembered was-suspended poison (later occurrences overwrite earlier
ones, as the single `was_suspended` variable does). -/
def wsStep (acc : Option Exc) (o : Option Exc) : Option Exc :=
  match o with
  | some (.wasSuspended m) => some (.wasSuspended m)
  | _ => acc

/-- Specification helper: the last was-suspended poison among the
upstream outcomes. -/
def lastWasSusp (outcomes : List (Option Exc)) : Option Exc :=
  outcomes.foldl wsStep none

/-- Truncating transpose: Python `zip(*lists)`, which pairs
same-indexed elements across all lists, stopping at the shortest. -/
def zipN : List (List Value) → List (List Value)
  | [] => []
  | [l] => l.map fun x => [x]
  | l :: rest => List.zipWith (fun x xs => x :: xs) l (zipN rest)

/-- Cartesian product: Python `itertools.product(*lists)`, first list
varying slowest. -/
def productN : List (List Value) → List (List Value)
  | [] => [[]]
  | l :: rest => l.flatMap fun x => (productN rest).map fun xs => x :: xs

/-- Loop-type annotation lookup with its default (`compute_all` lines
507-509): `pairwise` unless a `__loop_type__` annotation overrides. -/
def loopMode (ann : Option String) : String := ann.getD "pairwise"

/-- Element-tuple assembly of `compute_all` (lines 527-531): zip for
`pairwise`, full cross product for `cartesian` (any other annotation
value leaves `elements` empty).  `inputs` is the flattened per-port
value list for each iterated port, in port order. -/
def computeAllElements (ann : Option String) (inputs : List (List Value)) :
    List (List Value) :=
  let mode := loopMode ann
  if mode == "pairwise" then zipN inputs
  else if mode == "cartesian" then productN inputs
  else []

/-- Outcome of one iteration of an iteration engine: the clone's
output-port map after a successful `update`, or the exception its
`update` raised. -/
inductive IterResult where
  | ok (outs : Outs)
  | raise (e : Exc)

/-- Appends one produced value to a port's collected output list,
creating the entry on first use (`outputs[nameOutput].append(...)`,
lines 565-568). -/
def addOut (outs : List (String × List Value)) (p : String) (v : Value) :
    List (String × List Value) :=
  match outs with
  | [] => [(p, [v])]
  | (q, vs) :: rest =>
      if q == p then (q, vs ++ [v]) :: rest else (q, vs) :: addOut rest p v

/-- Folds one iteration's output map into the per-port collections. -/
def appendOutputs (outs : List (String × List Value)) (iterOuts : Outs) :
    List (String × List Value) :=
  iterOuts.foldl (fun acc pv => addOut acc pv.1 pv.2) outs

/-- Sets `loop_iteration` on a `ModuleSuspended` (`e.loop_iteration =
i`); other exceptions are left alone. -/
def tagSusp (e : Exc) (i : Nat) : Exc :=
  match e with
  | .suspended m msg ch _ => .suspended m msg ch (some i)
  | e => e

/-- Accumulator of the `compute_all` iteration loop: the per-port
collected outputs and the collected (tagged) suspensions. -/
structure LoopAcc where
  outputs : List (String × List Value)
  suspended : List Exc

/-- The iteration loop of `compute_all` (lines 538-570): runs the
clone once per element tuple; a `ModuleSuspended` is tagged with its
iteration index, collected, and the loop continues; any other raised
exception propagates and aborts the loop; a successful iteration
appends every clone output to the per-port collections. -/
def computeAllGo (run : Nat → List Value → IterResult) :
    List (List Value) → Nat → LoopAcc → Except Exc LoopAcc
  | [], _, acc => .ok acc
  | el :: rest, i, acc =>
    match run i el with
    | .ok outs =>
        computeAllGo run rest (i + 1)
          ⟨appendOutputs acc.outputs outs, acc.suspended⟩
    | .raise e =>
      match e with
      | .suspended m msg ch _ =>
          computeAllGo run rest (i + 1)
            ⟨acc.outputs, acc.suspended ++ [.suspended m msg ch (some i)]⟩
      | e => .error e

/-- `Module.compute_all` (lines 499-581): assembles the element tuples
from the loop-type annotation and the per-port inputs, iterates the
clone over them (`run i el` standing for resetting the clone's flags,
injecting `el` as constant connectors and calling `update`), and
afterwards either raises one aggregate `ModuleSuspended` reporting
`k/N iterations` with the collected children, or writes the collected
per-port lists as the final outputs. -/
def compute_all (self : MRef) (ann : Option String)
    (inputs : List (List Value)) (run : Nat → List Value → IterResult) :
    Except Exc (List (String × List Value)) :=
  let elements := computeAllElements ann inputs
  match computeAllGo run elements 0 ⟨[], []⟩ with
  | .error e => .error e
  | .ok acc =>
    if acc.suspended.isEmpty then .ok acc.outputs
    else .error (.suspended self
      ("function module suspended in " ++ toString acc.suspended.length ++
        "/" ++ toString elements.length ++ " iterations")
      acc.suspended none)

/-- Specification helper: the suspensions `computeAllGo` collects,
each tagged with its iteration index. -/
def collectSusp (run : Nat → List Value → IterResult) :
    List (List Value) → Nat → List Exc
  | [], _ => []
  | el :: rest, i =>
    (match run i el with
     | .raise (.suspended m msg ch _) => [Exc.suspended m msg ch (some i)]
     | _ => []) ++ collectSusp run rest (i + 1)

/-- Specification helper: the per-port outputs the successful
iterations contribute, folded in order onto `acc`. -/
def collectOuts (run : Nat → List Value → IterResult) :
    List (List Value) → Nat → List (String × List Value) →
    List (String × List Value)
  | [], _, acc => acc
  | el :: rest, i, acc =>
    match run i el with
    | .ok outs => collectOuts run rest (i + 1) (appendOutputs acc outs)
    | .raise _ => collectOuts run rest (i + 1) acc

/-- Whether an iteration outcome is success or a fresh suspension (the
two outcomes the `compute_all` loop survives). -/
def softIter : IterResult → Bool
  | .ok _ => true
  | .raise e => e.isSusp

/-- What `compute_streaming` does before any element flows. -/
inductive StreamAction where
  | computeAccumulate
  | computeAfterStreaming
  | setStreamingOutputs (ports : List String)

/-- The dispatch and guard portion of `Module.compute_streaming`
(lines 583-666): at `list_depth` 0 it delegates to the accumulate or
after-streaming variant depending on whether any streamed input still
has positive depth; otherwise it reads the loop-type annotation and
rejects `cartesian` with a `ModuleError` before the generator is built
and before any output Iterator is set; in the surviving case every
output port is set to a generator-backed Iterator. -/
def compute_streaming (self : MRef) (list_depth : Nat)
    (streamedDepths : List Nat) (ann : Option String)
    (outputPortNames : List String) : Except Exc StreamAction :=
  if list_depth == 0 then
    if 0 < streamedDepths.foldr max 0 then .ok .computeAccumulate
    else .ok .computeAfterStreaming
  else
    if loopMode ann == "cartesian" then
      .error (.moduleError self "Cannot use cartesian product while streaming!")
    else .ok (.setStreamingOutputs outputPortNames)

/-- Looks an output port up in an output map (`module.get_output`
returns the value; absence raises, handled at each call site). -/
def lookupOut (outs : Outs) (p : String) : Option Value :=
  (outs.find? fun pv => pv.1 == p).map fun pv => pv.2

/-- Captures the state-output values after an iteration of
`compute_while` (line 868): `module.get_output(port)` for each
configured state-output port, which raises `ModuleError` when a port
is missing. -/
def captureState (self : MRef) (outs : Outs) (names : List String) :
    Except Exc (List Value) :=
  names.mapM fun p =>
    match lookupOut outs p with
    | some v => .ok v
    | none => .error (.moduleError self
        ("output port \x27" ++ p ++ "\x27 not found"))

/-- Result of `compute_while`: the final output map together with the
number of loop iterations executed, or a raised exception. -/
inductive WhileResult where
  | ok (outs : Outs) (iterations : Nat)
  | raised (e : Exc)

/-- The after-iteration condition check of `compute_while` (lines
855-861): without a configured condition port the loop always
continues (`ok true`); with one, a missing output port raises
`ModuleError`, a falsy value breaks the loop (`ok false`). -/
def condCheck (self : MRef) (nameCond : Option String) (outs : Outs) :
    Except Exc Bool :=
  match nameCond with
  | none => .ok true
  | some c =>
    match lookupOut outs c with
    | none => .error (.moduleError self ("Invalid output port: " ++ c))
    | some v => .ok (truthy v)

/-- The iteration loop of `compute_while` (lines 829-871).  `run i st`
stands for one clone `update` at iteration `i` with state values `st`
injected on the state-input ports (none at iteration 0 or without
state ports).  A suspension is tagged with its iteration index and
re-raised immediately; after a successful iteration the condition
output, when configured, is read and a falsy value breaks the loop
without error; otherwise the state outputs are captured and the next
iteration starts, until the iteration budget is exhausted. -/
def whileGo (self : MRef) (run : Nat → Option (List Value) → Except Exc Outs)
    (nameCond : Option String) (stateOutNames : Option (List String)) :
    Nat → Nat → Option (List Value) → Outs → WhileResult
  | i, 0, _, lastOuts => .ok lastOuts i
  | i, fuel + 1, st, _ =>
    match run i st with
    | .error e => .raised (tagSusp e i)
    | .ok outs =>
      match condCheck self nameCond outs with
      | .error e => .raised e
      | .ok false => .ok outs (i + 1)
      | .ok true =>
        match stateOutNames with
        | none => whileGo self run nameCond stateOutNames (i + 1) fuel none outs
        | some names =>
          match captureState self outs names with
          | .error e => .raised e
          | .ok vals =>
              whileGo self run nameCond stateOutNames (i + 1) fuel
                (some vals) outs

/-- `Module.compute_while` (lines 780-875): reads the while
annotations — condition output port, maximum iteration count
(default 20), and the single-port state input/output lists, which must
be configured together — then drives the iteration loop on one reused
clone, starting with no threaded state.  The delay annotation only
sleeps and is not modelled; the final copying of the clone's outputs
onto the original is reflected by returning the last output map. -/
def compute_while (self : MRef) (annCond : Option String)
    (annMax : Option Nat) (annStateIn annStateOut : Option String)
    (run : Nat → Option (List Value) → Except Exc Outs)
    (initOuts : Outs) : WhileResult :=
  let max_iterations := annMax.getD 20
  if (annStateIn.isSome || annStateOut.isSome) &&
      (annStateIn.isNone || annStateOut.isNone) then
    .raised (.moduleError self
      ("Passing state between iterations requires BOTH StateInputPorts " ++
        "and StateOutputPorts to be set"))
  else
    whileGo self run annCond (annStateOut.map fun s => [s])
      0 max_iterations none initOuts

/-- A port-type descriptor as the connector sees it: its name and its
module class's optional `validate` predicate (the descriptor itself
comes from the registry, outside the sources). -/
structure Desc where
  name : String
  hasValidate : Bool
  validate : Value → Bool

/-- `ModuleConnector.depth` (lines 1396-1401): the list depth of the
source output, 0 unless it is an Iterator. -/
def connectorDepth : Value → Nat
  | .iter d _ => d
  | _ => 0

/-- Full production of the source output (`result.all()` when it is an
Iterator).  Modelled from the spec: `Iterator` is defined outside the
sources; producing all elements of a materialized Iterator yields its
backing value unchanged. -/
def iterAll : Value → Value
  | .iter _ backing => backing
  | v => v

/-- The values Python iteration yields from a value: lists and tuples
yield their elements, strings their one-character substrings; anything
else raises `TypeError` (`none`). -/
def iterElems : Value → Option (List Value)
  | .list l => some l
  | .tuple l => some l
  | .str s => some (s.toList.map fun ch => Value.str (String.mk [ch]))
  | _ => none

/-- One flattening layer, `[item for sublist in value for item in
sublist]`: iterate the value, iterate each element, concatenate;
`TypeError` (`none`) when the value or any element is not iterable. -/
def flattenOnce (v : Value) : Option Value :=
  (iterElems v).bind fun subs =>
    (subs.mapM iterElems).map fun ls => Value.list ls.flatten

/-- The flattening loop of `ModuleConnector.__call__` (lines
1422-1429): flatten once per unit of depth.  When a layer fails, the
source attempts to raise a `ModuleError`, but its message interpolates
a format string holding four placeholders with only three arguments
(`self.port, i, depth`), so the string formatting itself raises
`TypeError` and that raw exception escapes in place of the intended
`ModuleError`. -/
def flattenTimes : Nat → Value → Except Exc Value
  | 0, v => .ok v
  | n + 1, v =>
    match flattenOnce v with
    | some v' => flattenTimes n v'
    | none => .error (.generic "not enough arguments for format string" "")

/-- Python `value[0] if value else None` on the flattened list. -/
def firstOrNone (v : Value) : Value :=
  if truthy v then
    match v with
    | .list (x :: _) => x
    | _ => Value.none_
  else Value.none_

/-- The element loop of the tuple branch of `ModuleConnector.__call__`
(lines 1450-1460): each position with its mask bit set is validated
against its descriptor, a failure naming the element index and the
port; a mask shorter than the descriptors raises `IndexError`. -/
def checkTupleGo (obj : MRef) (port : String) (tc : List Bool) :
    Nat → List (Desc × Value) → Option Exc
  | _, [] => none
  | i, (d, v) :: rest =>
    match tc[i]? with
    | none => some (.generic "list index out of range" "")
    | some t =>
      if !t then checkTupleGo obj port tc (i + 1) rest
      else if d.hasValidate && !d.validate v then
        some (.moduleError obj
          ("Element " ++ toString i ++ " of tuple passed on Variant port " ++
            port ++ " does not match the destination type " ++ d.name))
      else checkTupleGo obj port tc (i + 1) rest

/-- `ModuleConnector.__call__` (lines 1408-1461).  `obj`/`port` name
the source; `raw` is the source's current output.  The value is fully
produced if it is an Iterator, then, when a spec and typecheck mask
are present: with a single declared descriptor and its mask bit set,
the value is flattened once per unit of resolved depth (a structural
shortfall escaping as the raw formatting `TypeError`, see
`flattenTimes`), the first remaining element is taken when depth was
nonzero, and a truthy result failing the descriptor's `validate` is a
type-mismatch `ModuleError` naming the port; with several descriptors
the value must be a tuple of matching length and each masked position
is validated.  On success the produced (unflattened) value is
returned. -/
def moduleConnectorCall (obj : MRef) (port : String) (raw : Value)
    (spec : Option (List Desc)) (typecheck : Option (List Bool)) :
    Except Exc Value :=
  let depth := connectorDepth raw
  let result := iterAll raw
  match spec, typecheck with
  | some descs, some tc =>
    match descs with
    | [desc] =>
      match tc with
      | [] => .error (.generic "list index out of range" "")
      | t0 :: _ =>
        if !t0 then .ok result
        else
          match flattenTimes depth result with
          | .error e => .error e
          | .ok value =>
            let value := if depth != 0 then firstOrNone value else value
            if desc.hasValidate && truthy value && !desc.validate value then
              .error (.moduleError obj
                ("Type passed on Variant port " ++ port ++
                  " does not match destination type " ++ desc.name))
            else .ok result
    | _ =>
      if tc.length == 1 && !(tc.headD false) then .ok result
      else
        let tc := if tc.length == 1 then List.replicate descs.length true
                  else tc
        match result with
        | .tuple elems =>
          if elems.length != descs.length then
            .error (.moduleError obj
              ("Object passed on Variant port " ++ port ++
                " does not have the correct length (" ++
                toString elems.length ++ ", expected " ++
                toString descs.length ++ ")"))
          else
            match checkTupleGo obj port tc 0 (descs.zip elems) with
            | some e => .error e
            | none => .ok result
        | _ =>
          .error (.moduleError obj
            ("Type passed on Variant port " ++ port ++ " is not a tuple"))
  | _, _ => .ok result

/-- An attached input connector as `get_input` / `get_input_list` see
it: whether its source module is an `InputPort`-type module, the value
its resolution (`connector()`) yields, and its `depth()`.  Resolution
is assumed to succeed here; `moduleConnectorCall` models resolution
itself. -/
structure Conn where
  isInputPort : Bool
  value : Value
  depth : Nat

/-- The per-element loop of `Module.typeChecking` (lines 889-914) for
a single input port.  `cmp` abstracts `get_module` plus the registry
spec matching (`module_registry` is outside the sources): `none`
models `get_module` returning `None`, which breaks out of the element
loop; `some b` is the `are_specs_matched` verdict. -/
def typeCheckingGo (self : MRef) (cmp : Value → Option Bool)
    (port : String) : List (List Value) → Option Exc
  | [] => none
  | elementList :: rest =>
    if elementList.length != 1 then
      some (.moduleError self
        "The number of input values and input ports are not the same.")
    else
      match elementList with
      | [element] =>
        match cmp element with
        | some true => typeCheckingGo self cmp port rest
        | some false =>
            some (.moduleError self
              ("The type of a list element does not match with the type " ++
                "of the port " ++ port ++ "."))
        | none => typeCheckingGo self cmp port rest
      | _ => typeCheckingGo self cmp port rest

/-- Wraps a value in `n` singleton list layers (the `while depth -
self.list_depth - spec.depth < 0: value = [value]` loop of
`get_input_list`, lines 1007-1009). -/
def wrapN : Nat → Value → Value
  | 0, v => v
  | n + 1, v => wrapN n (Value.list [v])

/-- One step of the root-flattening loop of `get_input_list` (lines
1010-1018): produce every Iterator item fully, then flatten one
layer; a `TypeError` is converted into the depth `ModuleError` at the
call site. -/
def rootStep (v : Value) : Option Value :=
  (iterElems v).bind fun items =>
    ((items.map iterAll).mapM iterElems).map fun ls => Value.list ls.flatten

/-- The root-flattening loop of `get_input_list`, running for layers
`1` to `depth - 1` and naming the failing layer and the expected depth
on a structural shortfall. -/
def rootFlatten (self : MRef) (port : String) (depth : Nat) :
    Nat → Value → Except Exc Value
  | i, v =>
    if i < depth then
      match rootStep v with
      | some v' => rootFlatten self port depth (i + 1) v'
      | none =>
          .error (.moduleError self
            ("List on port " ++ port ++ " has wrong depth " ++
              toString (i - 1) ++ ", expected " ++ toString depth ++ "."))
    else .ok v
termination_by i _ => depth - i

/-- Processing of one connector inside the loop of
`Module.get_input_list` (lines 995-1023): resolve the connector, bind
`root` to the resolved value (line 999, before the wrap loop), wrap
`value` — and `value` only — in one singleton layer per missing unit
of depth, flatten the unwrapped `root` once per layer from 1 to the
(post-wrap) depth minus one, and, unless the depth is positive with a
falsy root, type check each root element (or the root itself at depth
0); the wrapped, unflattened `value` is what gets collected. -/
def processConnector (self : MRef) (list_depth specDepth : Nat)
    (cmp : Value → Option Bool) (port : String) (c : Conn) :
    Except Exc Value :=
  let value := wrapN ((list_depth + specDepth) - c.depth) c.value
  let depth := max c.depth (list_depth + specDepth)
  match rootFlatten self port depth 1 c.value with
  | .error e => .error e
  | .ok root =>
    let check :=
      if depth == 0 then typeCheckingGo self cmp port [[root]]
      else if truthy root then
        match root with
        | .list rs => typeCheckingGo self cmp port (rs.map fun r => [r])
        | _ => some (.generic "TypeError: object is not iterable" "")
      else none
    match check with
    | some e => .error e
    | none => .ok value

/-- `Module.get_input` (lines 951-973) for a module with no registry
defaults in play: a port with no connector raises `ModuleError`;
otherwise the first connector whose source is an `InputPort`-type
module is resolved, and failing that the first connector that was
added to the port.  An empty connector list (impossible through
`set_input_port` / `remove_input_connector`) would raise a raw
`IndexError`. -/
def get_input (self : MRef) (inputPorts : List (String × List Conn))
    (port : String) : Except Exc Value :=
  match (inputPorts.find? fun pc => pc.1 == port).map fun pc => pc.2 with
  | none => .error (.moduleError self ("Missing value from port " ++ port))
  | some conns =>
    match conns.find? fun c => c.isInputPort with
    | some c => .ok c.value
    | none =>
      match conns with
      | c :: _ => .ok c.value
      | [] => .error (.generic "list index out of range" "")

/-- The connector loop of `Module.get_input_list` (lines 995-1023):
each connector is processed in order, the first raise propagating, and
the resolved values are appended to the collected list. -/
def collectConnectors (self : MRef) (list_depth specDepth : Nat)
    (cmp : Value → Option Bool) (port : String) :
    List Conn → Except Exc (List Value)
  | [] => .ok []
  | c :: rest =>
    match processConnector self list_depth specDepth cmp port c with
    | .error e => .error e
    | .ok v =>
      match collectConnectors self list_depth specDepth cmp port rest with
      | .error e => .error e
      | .ok vs => .ok (v :: vs)

/-- `Module.get_input_list` (lines 975-1024): a missing port raises
`ModuleError`; when any connector's source is an `InputPort`-type
module, only those connectors' values are returned; otherwise every
connector is processed in order and all resolved values are
collected. -/
def get_input_list (self : MRef) (list_depth specDepth : Nat)
    (cmp : Value → Option Bool) (inputPorts : List (String × List Conn))
    (port : String) : Except Exc (List Value) :=
  match (inputPorts.find? fun pc => pc.1 == port).map fun pc => pc.2 with
  | none => .error (.moduleError self ("Missing value from port " ++ port))
  | some conns =>
    let fromInputPortModule :=
      (conns.filter fun c => c.isInputPort).map fun c => c.value
    if fromInputPortModule.length > 0 then .ok fromInputPortModule
    else collectConnectors self list_depth specDepth cmp port conns

/-! Helper lemmas about the `update` protocol, shared by the claim
theorems below. -/

/-- The exception cascade never turns a raise into a normal return. -/
theorem handleBodyExc_ne_ok (s : ModuleState) (e : Exc) (t : ModuleState) :
    handleBodyExc s e ≠ .ok t := by
  cases e <;> simp [handleBodyExc]
  split <;> simp

/-- A successful `runBody` leaves exactly the success epilogue's
state. -/
theorem runBody_ok_state (body : ModuleState → BodyResult)
    (s t : ModuleState) (h : runBody body s = .ok t) :
    ∃ outs, t = { s with outputPorts := outs, computed := true,
                         upToDate := true, had_error := false } := by
  unfold runBody at h
  cases hb : body s with
  | ok outs =>
    rw [hb] at h
    exact ⟨outs, (UpdateResult.ok.inj h).symm⟩
  | raise e outs =>
    rw [hb] at h
    exact absurd h (handleBodyExc_ne_ok _ _ _)

/-- When `runBody` raises anything that is not a fresh suspension, the
instance keeps the `had_error` flag it entered with. -/
theorem runBody_raised_had_error (body : ModuleState → BodyResult)
    (s : ModuleState) (e : Exc) (t : ModuleState)
    (h : runBody body s = .raised e t) (hs : e.isSusp = false) :
    t.had_error = s.had_error := by
  unfold runBody at h
  cases hb : body s with
  | ok outs => rw [hb] at h; simp at h
  | raise e' outs =>
    rw [hb] at h
    cases e' with
    | suspended m msg ch li =>
        simp [handleBodyExc] at h
        rw [← h.1] at hs
        simp [Exc.isSusp] at hs
    | moduleError m msg =>
        by_cases hm : m.hasInterp = true <;> simp [handleBodyExc, hm] at h <;>
          rw [← h.2]
    | moduleErrors msgs => simp [handleBodyExc] at h; rw [← h.2]
    | hadError m => simp [handleBodyExc] at h; rw [← h.2]
    | wasSuspended m => simp [handleBodyExc] at h; rw [← h.2]
    | breakpoint m => simp [handleBodyExc] at h; rw [← h.2]
    | keyboardInterrupt => simp [handleBodyExc] at h; rw [← h.2]
    | generic msg tb => simp [handleBodyExc] at h; rw [← h.2]

/-- An instance with `had_error` set raises `ModuleHadError` from the
very first guard, touching nothing. -/
theorem update_poisoned (up : Except Exc Unit)
    (body : ModuleState → BodyResult) (s : ModuleState)
    (h : s.had_error = true) :
    update up body s = .raised (.hadError s.ref) s := by
  simp [update, h]

/-- Claim C1 (amended): for a module starting in the freshly
constructed state (all four execution flags false, no breakpoint)
whose `update()` succeeds, the resulting instance is marked computed,
the computation body was entered exactly once, and any second
`update()` call — whatever its upstream or computation would do —
returns the very same state immediately at the computed guard, leaving
every output port exactly as the first call left it. -/
theorem C1_cache_idempotence (up : Except Exc Unit)
    (body : ModuleState → BodyResult) (ref : MRef) (ports : Outs)
    (cc uc : Nat) (s' : ModuleState)
    (h : update up body ⟨ref, false, false, false, false, false, ports, cc, uc⟩
          = .ok s') :
    s'.computed = true ∧ s'.computeCount = cc + 1 ∧
    ∀ up' body', update up' body' s' = .ok s' := by
  cases up with
  | error e => simp [update] at h
  | ok u =>
    simp [update] at h
    obtain ⟨outs, ht⟩ := runBody_ok_state _ _ _ h
    subst ht
    refine ⟨rfl, rfl, fun up' body' => ?_⟩
    simp [update]

/-- Claim C1 counterexample: a module that enters `update()` already
marked `upToDate` (the cache-hit state of §4.1 step 6) succeeds twice
— the second call returning at the computed guard with identical state
— yet its computation body is entered zero times, not exactly once. -/
theorem C1_counterexample :
    update (.ok ()) (fun _ => .ok [])
        ⟨⟨0, true⟩, true, false, false, false, false, [], 0, 0⟩
      = .ok ⟨⟨0, true⟩, true, false, false, true, false, [], 0, 1⟩ ∧
    update (.ok ()) (fun _ => .ok [])
        ⟨⟨0, true⟩, true, false, false, true, false, [], 0, 1⟩
      = .ok ⟨⟨0, true⟩, true, false, false, true, false, [], 0, 1⟩ ∧
    (⟨⟨0, true⟩, true, false, false, true, false, [], 0, 1⟩ :
        ModuleState).computeCount = 0 :=
  ⟨rfl, rfl, rfl⟩

/-- Claim C1 witness: a fresh module computing one output port. -/
theorem C1_cache_idempotence_witness :
    (⟨⟨3, true⟩, true, false, false, true, false, [("out", Value.int 7)], 1, 1⟩ :
        ModuleState).computed = true ∧
    (⟨⟨3, true⟩, true, false, false, true, false, [("out", Value.int 7)], 1, 1⟩ :
        ModuleState).computeCount = 0 + 1 ∧
    ∀ up' body', update up' body'
        ⟨⟨3, true⟩, true, false, false, true, false, [("out", Value.int 7)], 1, 1⟩
      = .ok ⟨⟨3, true⟩, true, false, false, true, false,
              [("out", Value.int 7)], 1, 1⟩ :=
  C1_cache_idempotence (.ok ()) (fun _ => .ok [("out", Value.int 7)])
    ⟨3, true⟩ [] 0 0 _ rfl

/-- Claim C2 (confirmed): whenever an `update()` on a
not-currently-suspended instance raises anything but a fresh
suspension — its upstream having succeeded, so the raise stems from
its own computation or the breakpoint/poison guards — the instance is
left with `had_error` set, and every subsequent `update()` on that
same instance raises `ModuleHadError` immediately with the state
untouched: upstream is not consulted and the computation body is not
entered again (the upstream and compute counters are unchanged). -/
theorem C2_poison_persistence (body : ModuleState → BodyResult)
    (s : ModuleState) (e : Exc) (s₁ : ModuleState)
    (hws : s.was_suspended = false)
    (h : update (.ok ()) body s = .raised e s₁)
    (hs : e.isSusp = false) :
    s₁.had_error = true ∧
    ∀ up' body', update up' body' s₁ = .raised (.hadError s₁.ref) s₁ := by
  have h1 : s₁.had_error = true := by
    by_cases he : s.had_error = true
    · simp [update, he] at h
      rw [← h.2]; exact he
    · by_cases hcp : s.computed = true
      · simp [update, he, hws, hcp] at h
      · by_cases hug : s.upToDate = true
        · simp [update, he, hws, hcp, hug] at h
        · by_cases hbp : s.is_breakpoint = true
          · simp [update, he, hws, hcp, hug, hbp] at h
            rw [← h.2]
          · simp [update, he, hws, hcp, hug, hbp] at h
            have := runBody_raised_had_error _ _ _ _ h hs
            rw [this]
  exact ⟨h1, fun up' body' => update_poisoned up' body' s₁ h1⟩

/-- Claim C2 witness: a fresh module whose computation raises a raw
exception; the failed state then guards every further update. -/
theorem C2_poison_persistence_witness :
    (⟨⟨0, true⟩, false, true, false, false, false, [], 1, 1⟩ :
        ModuleState).had_error = true ∧
    ∀ up' body', update up' body'
        ⟨⟨0, true⟩, false, true, false, false, false, [], 1, 1⟩
      = .raised (.hadError ⟨0, true⟩)
          ⟨⟨0, true⟩, false, true, false, false, false, [], 1, 1⟩ :=
  C2_poison_persistence (fun _ => .raise (.generic "boom" "tb") [])
    ⟨⟨0, true⟩, false, false, false, false, false, [], 0, 0⟩
    (.moduleError ⟨0, true⟩ "Uncaught exception: boom\ntb")
    ⟨⟨0, true⟩, false, true, false, false, false, [], 1, 1⟩
    rfl rfl rfl

/-- Claim C3 (confirmed): a raw exception raised inside the module's
own computation never escapes `update()` unclassified.  A generic
fault is re-raised as a `ModuleError` whose message carries the
original message and the traceback text, a `KeyboardInterrupt` as a
`ModuleError` reading `Interrupted by user`; in neither case does the
raw exception itself escape. -/
theorem C3_raw_exceptions_classified (ref : MRef) (ports outs : Outs)
    (cc uc : Nat) (msg tb : String) :
    (∃ t, update (.ok ()) (fun _ => .raise (.generic msg tb) outs)
            ⟨ref, false, false, false, false, false, ports, cc, uc⟩
          = .raised (.moduleError ref
              ("Uncaught exception: " ++ msg ++ "\n" ++ tb)) t) ∧
    (∀ t, update (.ok ()) (fun _ => .raise (.generic msg tb) outs)
            ⟨ref, false, false, false, false, false, ports, cc, uc⟩
          ≠ .raised (.generic msg tb) t) ∧
    (∃ t, update (.ok ()) (fun _ => .raise .keyboardInterrupt outs)
            ⟨ref, false, false, false, false, false, ports, cc, uc⟩
          = .raised (.moduleError ref "Interrupted by user") t) ∧
    (∀ t, update (.ok ()) (fun _ => .raise .keyboardInterrupt outs)
            ⟨ref, false, false, false, false, false, ports, cc, uc⟩
          ≠ .raised .keyboardInterrupt t) := by
  refine ⟨⟨_, rfl⟩, fun t hcontra => ?_, ⟨_, rfl⟩, fun t hcontra => ?_⟩ <;>
    simp [update, runBody, handleBodyExc, excMessage, excTraceback] at hcontra

/-- The collection loop visits every outcome: it accumulates exactly
the fresh suspensions in order and remembers the last poison, provided
no hard error aborts it. -/
theorem upCollect_eq (outcomes : List (Option Exc)) (susp : List Exc)
    (ws : Option Exc) (h : outcomes.all softOutcome = true) :
    upCollect outcomes susp ws
      = .ok (susp ++ freshSusps outcomes, outcomes.foldl wsStep ws) := by
  induction outcomes generalizing susp ws with
  | nil => simp [upCollect, freshSusps]
  | cons o rest ih =>
    simp only [List.all_cons, Bool.and_eq_true] at h
    obtain ⟨ho, hrest⟩ := h
    cases o with
    | none => simpa [upCollect, freshSusps, wsStep] using ih susp ws hrest
    | some e =>
      cases e with
      | wasSuspended m =>
        simpa [upCollect, freshSusps, wsStep] using
          ih susp (some (.wasSuspended m)) hrest
      | suspended m msg ch li =>
        have h2 := ih (susp ++ [.suspended m msg ch li]) ws hrest
        rw [List.append_assoc, List.singleton_append] at h2
        simpa [upCollect, freshSusps, wsStep] using h2
      | hadError m => simp [softOutcome] at ho
      | moduleError m msg => simp [softOutcome] at ho
      | moduleErrors msgs => simp [softOutcome] at ho
      | breakpoint m => simp [softOutcome] at ho
      | keyboardInterrupt => simp [softOutcome] at ho
      | generic msg tb => simp [softOutcome] at ho

/-- Claim C4 (amended): when every upstream outcome is success, a
fresh suspension or the was-suspended poison, `update_upstream`
consults every connector and then raises: the single collected fresh
suspension unchanged; an aggregate `ModuleSuspended` listing all
collected fresh suspensions as children when there are several; and
the last was-suspended poison only when no fresh suspension was
collected — fresh suspensions are surfaced in preference to the
poison, not the other way around. -/
theorem C4_fresh_suspensions_beat_poison (self : MRef)
    (outcomes : List (Option Exc)) (h : outcomes.all softOutcome = true) :
    update_upstream self outcomes =
      match freshSusps outcomes with
      | [] => lastWasSusp outcomes
      | [s] => some s
      | ss => some (.suspended self "multiple suspended upstream modules"
                      ss none) := by
  unfold update_upstream
  rw [upCollect_eq outcomes [] none h]
  cases hf : freshSusps outcomes with
  | nil => simp [hf, lastWasSusp]
  | cons a tl => cases tl <;> simp [hf]

/-- Claim C4 counterexample: one upstream connector raised the
was-suspended poison and another a fresh suspension; `update_upstream`
raises the fresh suspension, not the poison the claim says would be
preferred. -/
theorem C4_counterexample :
    update_upstream ⟨0, false⟩
        [some (.wasSuspended ⟨1, false⟩),
         some (.suspended ⟨2, false⟩ "job pending" [] none)]
      = some (.suspended ⟨2, false⟩ "job pending" [] none) ∧
    ¬ update_upstream ⟨0, false⟩
        [some (.wasSuspended ⟨1, false⟩),
         some (.suspended ⟨2, false⟩ "job pending" [] none)]
      = some (.wasSuspended ⟨1, false⟩) := by
  refine ⟨rfl, fun hcontra => ?_⟩
  rw [show update_upstream ⟨0, false⟩
        [some (.wasSuspended ⟨1, false⟩),
         some (.suspended ⟨2, false⟩ "job pending" [] none)]
      = some (.suspended ⟨2, false⟩ "job pending" [] none) from rfl] at hcontra
  simp at hcontra

/-- Claim C4 witness: two fresh suspensions collected past a poison
and a success; the aggregate lists both children in order. -/
theorem C4_fresh_suspensions_beat_poison_witness :
    update_upstream ⟨9, false⟩
        [none,
         some (.suspended ⟨1, false⟩ "a" [] none),
         some (.wasSuspended ⟨3, false⟩),
         some (.suspended ⟨2, false⟩ "b" [] none)]
      = some (.suspended ⟨9, false⟩ "multiple suspended upstream modules"
          [.suspended ⟨1, false⟩ "a" [] none,
           .suspended ⟨2, false⟩ "b" [] none] none) :=
  C4_fresh_suspensions_beat_poison ⟨9, false⟩
    [none,
     some (.suspended ⟨1, false⟩ "a" [] none),
     some (.wasSuspended ⟨3, false⟩),
     some (.suspended ⟨2, false⟩ "b" [] none)] rfl

/-- Claim C5 (confirmed): with iterated ports `A = [1, 2]` and
`B = [10, 20, 30]`, the default (no annotation, hence `pairwise`)
batch iteration assembles exactly the 2 element tuples
`(1,10), (2,20)`, truncating to the shortest list, and the
`cartesian` annotation exactly the 6 tuples in product order; running
`compute_all` over them gives each output port a collected list of
the corresponding length 2 resp. 6. -/
theorem C5_pairwise_vs_cartesian :
    computeAllElements none
        [[Value.int 1, Value.int 2],
         [Value.int 10, Value.int 20, Value.int 30]]
      = [[Value.int 1, Value.int 10], [Value.int 2, Value.int 20]] ∧
    computeAllElements (some "cartesian")
        [[Value.int 1, Value.int 2],
         [Value.int 10, Value.int 20, Value.int 30]]
      = [[Value.int 1, Value.int 10], [Value.int 1, Value.int 20],
         [Value.int 1, Value.int 30], [Value.int 2, Value.int 10],
         [Value.int 2, Value.int 20], [Value.int 2, Value.int 30]] ∧
    compute_all ⟨0, false⟩ none
        [[Value.int 1, Value.int 2],
         [Value.int 10, Value.int 20, Value.int 30]]
        (fun _ el => .ok [("out", Value.list el)])
      = .ok [("out", [Value.list [Value.int 1, Value.int 10],
                      Value.list [Value.int 2, Value.int 20]])] ∧
    compute_all ⟨0, false⟩ (some "cartesian")
        [[Value.int 1, Value.int 2],
         [Value.int 10, Value.int 20, Value.int 30]]
        (fun _ el => .ok [("out", Value.list el)])
      = .ok [("out", [Value.list [Value.int 1, Value.int 10],
                      Value.list [Value.int 1, Value.int 20],
                      Value.list [Value.int 1, Value.int 30],
                      Value.list [Value.int 2, Value.int 10],
                      Value.list [Value.int 2, Value.int 20],
                      Value.list [Value.int 2, Value.int 30]])] :=
  ⟨rfl, rfl, rfl, rfl⟩

/-- The batch-iteration loop, when every iteration either succeeds or
freshly suspends, visits every element tuple: it returns all collected
per-port outputs together with every suspension tagged by its
iteration index. -/
theorem computeAllGo_eq (run : Nat → List Value → IterResult)
    (els : List (List Value)) (i : Nat) (acc : LoopAcc)
    (h : ∀ j el, softIter (run j el) = true) :
    computeAllGo run els i acc
      = .ok ⟨collectOuts run els i acc.outputs,
             acc.suspended ++ collectSusp run els i⟩ := by
  induction els generalizing i acc with
  | nil => simp [computeAllGo, collectOuts, collectSusp]
  | cons el rest ih =>
    obtain ⟨aouts, asusp⟩ := acc
    cases hr : run i el with
    | ok outs =>
      simpa [computeAllGo, collectOuts, collectSusp, hr] using
        ih (i + 1) ⟨appendOutputs aouts outs, asusp⟩
    | raise e =>
      have hsoft := h i el
      rw [hr] at hsoft
      cases e with
      | suspended m msg ch li =>
        have h2 := ih (i + 1) ⟨aouts, asusp ++ [.suspended m msg ch (some i)]⟩
        rw [List.append_assoc, List.singleton_append] at h2
        simpa [computeAllGo, collectOuts, collectSusp, hr] using h2
      | hadError m => simp [softIter, Exc.isSusp] at hsoft
      | wasSuspended m => simp [softIter, Exc.isSusp] at hsoft
      | moduleError m msg => simp [softIter, Exc.isSusp] at hsoft
      | moduleErrors msgs => simp [softIter, Exc.isSusp] at hsoft
      | breakpoint m => simp [softIter, Exc.isSusp] at hsoft
      | keyboardInterrupt => simp [softIter, Exc.isSusp] at hsoft
      | generic msg tb => simp [softIter, Exc.isSusp] at hsoft

/-- Claim C6 (confirmed): when every iteration of `compute_all` either
succeeds or freshly suspends, no suspension aborts the loop — all
element tuples are visited.  With no suspension the collected per-port
outputs become the final outputs; with `k ≥ 1` suspensions one
aggregate `ModuleSuspended` is raised whose message reports `k/N
iterations` and whose children are exactly the `k` suspensions, each
tagged with its originating iteration index, the successful iterations
having contributed no error. -/
theorem C6_suspension_aggregation (self : MRef) (ann : Option String)
    (inputs : List (List Value)) (run : Nat → List Value → IterResult)
    (h : ∀ j el, softIter (run j el) = true) :
    (collectSusp run (computeAllElements ann inputs) 0 = [] →
      compute_all self ann inputs run
        = .ok (collectOuts run (computeAllElements ann inputs) 0 [])) ∧
    (collectSusp run (computeAllElements ann inputs) 0 ≠ [] →
      compute_all self ann inputs run
        = .error (.suspended self
            ("function module suspended in "
              ++ toString
                  (collectSusp run (computeAllElements ann inputs) 0).length
              ++ "/" ++ toString (computeAllElements ann inputs).length
              ++ " iterations")
            (collectSusp run (computeAllElements ann inputs) 0) none)) := by
  simp only [compute_all]
  rw [computeAllGo_eq run (computeAllElements ann inputs) 0 ⟨[], []⟩ h]
  constructor
  · intro hc
    simp [hc]
  · intro hc
    simp [List.isEmpty_iff, hc]

/-- Claim C6 witness: four element tuples with suspensions at indices
1 and 3; one aggregate reports 2/4 with the two tagged children, while
iterations 0 and 2 completed. -/
theorem C6_suspension_aggregation_witness :
    compute_all ⟨0, false⟩ none
        [[Value.int 10, Value.int 11, Value.int 12, Value.int 13]]
        (fun i _ =>
          if i == 1 || i == 3 then
            .raise (.suspended ⟨7, false⟩ "job queued" [] none)
          else .ok [("r", Value.int 0)])
      = .error (.suspended ⟨0, false⟩
          "function module suspended in 2/4 iterations"
          [.suspended ⟨7, false⟩ "job queued" [] (some 1),
           .suspended ⟨7, false⟩ "job queued" [] (some 3)] none) :=
  (C6_suspension_aggregation ⟨0, false⟩ none
      [[Value.int 10, Value.int 11, Value.int 12, Value.int 13]]
      (fun i _ =>
        if i == 1 || i == 3 then
          .raise (.suspended ⟨7, false⟩ "job queued" [] none)
        else .ok [("r", Value.int 0)])
      (by
        intro j el
        by_cases hj : (j == 1 || j == 3) = true <;>
          simp [hj, softIter, Exc.isSusp])).2
    (by intro hc; exact List.noConfusion hc)

/-- With no condition port and every iteration succeeding, the while
loop runs down its whole fuel, executing one iteration per unit. -/
theorem whileGo_no_cond (self : MRef)
    (run : Nat → Option (List Value) → Except Exc Outs)
    (h : ∀ i st, ∃ outs, run i st = .ok outs) :
    ∀ fuel i st lastOuts, ∃ outs,
      whileGo self run none none i fuel st lastOuts = .ok outs (i + fuel) := by
  intro fuel
  induction fuel with
  | zero => exact fun i st lo => ⟨lo, by simp [whileGo]⟩
  | succ n ih =>
    intro i st lo
    obtain ⟨outs, hr⟩ := h i st
    obtain ⟨outs', hr'⟩ := ih (i + 1) none outs
    have harith : i + 1 + n = i + (n + 1) := by omega
    rw [harith] at hr'
    exact ⟨outs', by simp [whileGo, hr, condCheck, hr']⟩

/-- With a condition port that reads true strictly before iteration
`k` and false at iteration `k`, the while loop breaks right after
iteration `k`, returning that iteration's outputs. -/
theorem whileGo_cond_stop (self : MRef) (c : String)
    (run : Nat → Option (List Value) → Except Exc Outs)
    (outsF : Nat → Outs) (condV : Nat → Value) (k : Nat)
    (hrun : ∀ i st, run i st = .ok (outsF i))
    (hlook : ∀ i, i ≤ k → lookupOut (outsF i) c = some (condV i))
    (htrue : ∀ i, i < k → truthy (condV i) = true)
    (hfalse : truthy (condV k) = false) :
    ∀ fuel i st lastOuts, k < i + fuel → i ≤ k →
      whileGo self run (some c) none i fuel st lastOuts
        = .ok (outsF k) (k + 1) := by
  intro fuel
  induction fuel with
  | zero => intro i st lo hgt hle; omega
  | succ n ih =>
    intro i st lo hgt hle
    rcases Nat.lt_or_ge i k with hik | hik
    · have hl := hlook i (le_of_lt hik)
      have ht := htrue i hik
      have hrec := ih (i + 1) none (outsF i) (by omega) (by omega)
      simp [whileGo, hrun, condCheck, hl, ht, hrec]
    · have hik' : i = k := Nat.le_antisymm hle hik
      subst hik'
      have hl := hlook i le_rfl
      simp [whileGo, hrun, condCheck, hl, hfalse]

/-- Claim C7 (confirmed): in `compute_while`, with no condition port
configured and every clone update succeeding, the loop body runs
exactly `max_iterations` times, where `max_iterations` is the max
annotation's value and defaults to 20 when that annotation is absent;
with a condition port configured, the loop stops without error right
after the first iteration whose condition output is falsy, regardless
of the remaining iteration budget. -/
theorem C7_while_loop_termination :
    (∀ (self : MRef) (annMax : Option Nat)
        (run : Nat → Option (List Value) → Except Exc Outs)
        (initOuts : Outs),
      (∀ i st, ∃ outs, run i st = .ok outs) →
      ∃ outs, compute_while self none annMax none none run initOuts
                = .ok outs (annMax.getD 20)) ∧
    (∀ (self : MRef) (c : String) (maxI : Nat)
        (run : Nat → Option (List Value) → Except Exc Outs)
        (outsF : Nat → Outs) (condV : Nat → Value) (k : Nat)
        (initOuts : Outs),
      k < maxI →
      (∀ i st, run i st = .ok (outsF i)) →
      (∀ i, i ≤ k → lookupOut (outsF i) c = some (condV i)) →
      (∀ i, i < k → truthy (condV i) = true) →
      truthy (condV k) = false →
      compute_while self (some c) (some maxI) none none run initOuts
        = .ok (outsF k) (k + 1)) := by
  constructor
  · intro self annMax run initOuts h
    obtain ⟨outs, hw⟩ :=
      whileGo_no_cond self run h (annMax.getD 20) 0 none initOuts
    exact ⟨outs, by simpa [compute_while] using hw⟩
  · intro self c maxI run outsF condV k initOuts hk hrun hlook htrue hfalse
    have hw := whileGo_cond_stop self c run outsF condV k hrun hlook htrue
      hfalse maxI 0 none initOuts (by omega) (by omega)
    simpa [compute_while] using hw

/-- Claim C7 witness: without a condition port the default budget runs
20 iterations; with one that turns false at iteration index 2 and max
5, the loop stops after 3 iterations. -/
theorem C7_while_loop_termination_witness :
    (∃ outs, compute_while ⟨0, true⟩ none none none none
        (fun _ _ => .ok [("x", Value.int 1)]) [] = .ok outs 20) ∧
    compute_while ⟨0, true⟩ (some "cond") (some 5) none none
        (fun i _ => .ok [("cond", Value.bool (decide (i < 2)))]) []
      = .ok [("cond", Value.bool false)] 3 :=
  ⟨C7_while_loop_termination.1 ⟨0, true⟩ none
      (fun _ _ => .ok [("x", Value.int 1)]) []
      (fun _ _ => ⟨[("x", Value.int 1)], rfl⟩),
   C7_while_loop_termination.2 ⟨0, true⟩ "cond" 5
      (fun i _ => .ok [("cond", Value.bool (decide (i < 2)))])
      (fun i => [("cond", Value.bool (decide (i < 2)))])
      (fun i => Value.bool (decide (i < 2))) 2 []
      (by omega) (fun _ _ => rfl) (fun _ _ => rfl)
      (fun i hi => by simp [truthy, hi]) (by decide)⟩

/-- Claim C8 (confirmed): whenever `compute_streaming` performs
per-element streaming (list depth at least 1) under a `cartesian`
loop-type annotation, it raises the descriptive `ModuleError` at once
— the result is the error, so no generator is built and no output
Iterator is set. -/
theorem C8_streaming_rejects_cartesian (self : MRef) (d : Nat)
    (streamedDepths : List Nat) (outNames : List String) :
    compute_streaming self (d + 1) streamedDepths (some "cartesian") outNames
      = .error (.moduleError self
          "Cannot use cartesian product while streaming!") := by
  simp [compute_streaming, loopMode]

/-- Claim C9 (code bug evaluated): resolving a single-`Integer`-typed,
mask-enabled connector.  A depth-1 value whose elements are not lists
makes the flattening layer fail, and the raw formatting `TypeError`
escapes instead of a `ModuleError` naming the port and the depths; a
structurally deep enough value is flattened once per unit of depth
and its first remaining element taken, with a `validate` failure
surfaced as the type-mismatch `ModuleError` naming the port, and a
passing value returned unflattened. -/
theorem C9_connector_resolution_evaluation :
    moduleConnectorCall ⟨1, false⟩ "value" (.iter 1 (.list [.int 5]))
        (some [⟨"Integer", true, fun v => match v with
                                          | .int _ => true
                                          | _ => false⟩])
        (some [true])
      = .error (.generic "not enough arguments for format string" "") ∧
    moduleConnectorCall ⟨1, false⟩ "value"
        (.iter 1 (.list [.list [.str "x"]]))
        (some [⟨"Integer", true, fun v => match v with
                                          | .int _ => true
                                          | _ => false⟩])
        (some [true])
      = .error (.moduleError ⟨1, false⟩
          ("Type passed on Variant port value does not match " ++
            "destination type Integer")) ∧
    moduleConnectorCall ⟨1, false⟩ "value"
        (.iter 1 (.list [.list [.int 7]]))
        (some [⟨"Integer", true, fun v => match v with
                                          | .int _ => true
                                          | _ => false⟩])
        (some [true])
      = .ok (.list [.list [.int 7]]) :=
  ⟨rfl, rfl, rfl⟩

/-- A connector of depth 0 against a depth-0 port spec passes through
untouched when the registry check passes. -/
theorem processConnector_depth0 (self : MRef) (port : String) (c : Conn)
    (hd : c.depth = 0) :
    processConnector self 0 0 (fun _ => some true) port c = .ok c.value := by
  simp [processConnector, hd, wrapN, rootFlatten, typeCheckingGo]

/-- All-depth-0 connectors resolve to exactly their values, in
order. -/
theorem collectConnectors_depth0 (self : MRef) (port : String) :
    ∀ conns : List Conn, (∀ c ∈ conns, c.depth = 0) →
      collectConnectors self 0 0 (fun _ => some true) port conns
        = .ok (conns.map fun c => c.value) := by
  intro conns
  induction conns with
  | nil => intro _; rfl
  | cons c rest ih =>
    intro h
    have hc := h c (by simp)
    have hr := ih fun x hx => h x (by simp [hx])
    simp [collectConnectors, processConnector_depth0 self port c hc, hr]

/-- Claim C10 (confirmed): on a fan-in port, `get_input` returns the
value of the first connector added to the port — except that the
first connector whose source is an `InputPort`-type module takes
priority — ignoring every other connector, while `get_input_list`
(here with depth-0 connectors and a passing registry check) returns
every connector's value in order. -/
theorem C10_fan_in_first_connector (self : MRef) (port : String)
    (c0 : Conn) (rest : List Conn) :
    ((c0 :: rest).find? (fun c => c.isInputPort) = none →
      get_input self [(port, c0 :: rest)] port = .ok c0.value) ∧
    (∀ cip, (c0 :: rest).find? (fun c => c.isInputPort) = some cip →
      get_input self [(port, c0 :: rest)] port = .ok cip.value) ∧
    ((∀ c ∈ c0 :: rest, c.isInputPort = false ∧ c.depth = 0) →
      get_input_list self 0 0 (fun _ => some true)
          [(port, c0 :: rest)] port
        = .ok ((c0 :: rest).map fun c => c.value)) := by
  refine ⟨?_, ?_, ?_⟩
  · intro hf
    simp [get_input, hf]
  · intro cip hf
    simp [get_input, hf]
  · intro hall
    have hfilter : (c0 :: rest).filter (fun c => c.isInputPort) = [] := by
      rw [List.filter_eq_nil_iff]
      intro a ha
      simp [(hall a ha).1]
    simp [get_input_list, hfilter,
      collectConnectors_depth0 self port (c0 :: rest) fun c hc => (hall c hc).2]

/-- Claim C10 witness: two plain connectors yield the first value from
`get_input` and both from `get_input_list`; an `InputPort`-sourced
connector in second position wins over the first-added one. -/
theorem C10_fan_in_first_connector_witness :
    get_input ⟨0, true⟩
        [("p", [⟨false, Value.int 1, 0⟩, ⟨false, Value.int 2, 0⟩])] "p"
      = .ok (Value.int 1) ∧
    get_input ⟨0, true⟩
        [("q", [⟨false, Value.int 1, 0⟩, ⟨true, Value.int 9, 0⟩])] "q"
      = .ok (Value.int 9) ∧
    get_input_list ⟨0, true⟩ 0 0 (fun _ => some true)
        [("p", [⟨false, Value.int 1, 0⟩, ⟨false, Value.int 2, 0⟩])] "p"
      = .ok [Value.int 1, Value.int 2] :=
  ⟨(C10_fan_in_first_connector ⟨0, true⟩ "p" ⟨false, Value.int 1, 0⟩
      [⟨false, Value.int 2, 0⟩]).1 rfl,
   (C10_fan_in_first_connector ⟨0, true⟩ "q" ⟨false, Value.int 1, 0⟩
      [⟨true, Value.int 9, 0⟩]).2.1 ⟨true, Value.int 9, 0⟩ rfl,
   (C10_fan_in_first_connector ⟨0, true⟩ "p" ⟨false, Value.int 1, 0⟩
      [⟨false, Value.int 2, 0⟩]).2.2 (by
        intro c hc
        simp at hc
        rcases hc with rfl | rfl <;> exact ⟨rfl, rfl⟩)⟩

end VisTrails
